import Mathlib

/-!
Verification of the serverless request handlers of this repository:
the create-user handler (`src/lambda_function.py`) and the user-lookup
observability handler (`src/user_handler.py`).

The embedding models:
* JSON values and the behaviour of Python's `json.loads` / `json.dumps`
  (strict decoding, `', '` / `': '` default separators, `ensure_ascii`
  escaping), which the handlers use for request bodies and responses;
* the pydantic models `User`, `UserRequest`, `UserResponse` and their
  validation/serialization behaviour as used by the handlers;
* both handler functions, including the metric increments and the
  database-stub invocations as an explicit execution trace.
-/

/-- JSON values as produced by Python's `json.loads`.  Python represents a
JSON object as a `dict`; we keep the member list in source order and look
keys up with last-occurrence-wins semantics, matching dict insertion.
Non-integer numbers are kept abstract as their source lexeme: no handler
inspects a float value, only parse acceptance matters for them. -/
inductive JVal where
  | jnull : JVal
  | jbool (b : Bool) : JVal
  | jint (n : Int) : JVal
  | jfloat (lexeme : String) : JVal
  | jstr (s : String) : JVal
  | jarr (elems : List JVal) : JVal
  | jobj (members : List (String × JVal)) : JVal

/-- Python `dict` lookup for an association list built by insertions in
order: a later binding of the same key overwrites an earlier one. -/
def pyGet {α : Type} : List (String × α) → String → Option α
  | [], _ => none
  | (k, v) :: rest, key =>
    match pyGet rest key with
    | some r => some r
    | none => if k = key then some v else none

/-- Whitespace characters skipped by Python's JSON decoder (`' \t\n\r'`). -/
def isWsChar (c : Char) : Bool :=
  c = ' ' ∨ c = '\t' ∨ c = '\n' ∨ c = '\r'

/-- Skip leading JSON whitespace. -/
def skipWs : List Char → List Char
  | [] => []
  | c :: cs => if isWsChar c then skipWs cs else c :: cs

/-- Value of one hexadecimal digit, as accepted in a `\uXXXX` escape. -/
def hexVal : Char → Option Nat
  | c =>
    if 48 ≤ c.toNat ∧ c.toNat ≤ 57 then some (c.toNat - 48)
    else if 97 ≤ c.toNat ∧ c.toNat ≤ 102 then some (c.toNat - 87)
    else if 65 ≤ c.toNat ∧ c.toNat ≤ 70 then some (c.toNat - 55)
    else none

/-- Combined value of a four-hex-digit escape body. -/
def hex4 (a b c d : Char) : Option Nat :=
  match hexVal a, hexVal b, hexVal c, hexVal d with
  | some x, some y, some z, some w => some (((x * 16 + y) * 16 + z) * 16 + w)
  | _, _, _, _ => none

/-- The four-hex-digit body of a `\uXXXX` escape: its code unit and the
remainder.  Fails when fewer than four characters or invalid hex follow,
as Python's `_decode_uXXXX` does. -/
def escU : List Char → Option (Nat × List Char)
  | a :: b :: c :: d :: cs => (hex4 a b c d).map (fun h => (h, cs))
  | _ => none

/-- One escape sequence after the backslash: the code unit it denotes and
the remainder.  The eight simple escapes of Python's `BACKSLASH` table,
plus `\u`. -/
def escStep : List Char → Option (Nat × List Char)
  | [] => none
  | e :: cs =>
    if e = '"' then some (34, cs)
    else if e = '\\' then some (92, cs)
    else if e = '/' then some (47, cs)
    else if e = 'b' then some (8, cs)
    else if e = 'f' then some (12, cs)
    else if e = 'n' then some (10, cs)
    else if e = 'r' then some (13, cs)
    else if e = 't' then some (9, cs)
    else if e = 'u' then escU cs
    else none

/-- Body of a JSON string after the opening quote, as a stream of code
units.  Mirrors Python's `py_scanstring` in strict mode: raw control
characters are rejected and each escape contributes its unit.
Surrogate-pair combination happens in `combineSurrogates` below, exactly
as in Python's scan loop: a high surrogate unit can only come from a
`\u` escape, so combining adjacent high/low units afterwards is the same
greedy left-to-right rule.  Fuel-indexed (every step consumes at least
one character, so `length + 1` fuel suffices, see `parseStringBody`);
returns the units and the remainder after the closing quote. -/
def psbUnits : Nat → List Char → Option (List Nat × List Char)
  | 0, _ => none
  | fuel + 1, cs =>
    match cs with
    | [] => none
    | c :: cs1 =>
      if c = '"' then some ([], cs1)
      else if c = '\\' then
        match escStep cs1 with
        | none => none
        | some (u, cs2) => (psbUnits fuel cs2).map (fun p => (u :: p.1, p.2))
      else if c.toNat < 0x20 then none
      else (psbUnits fuel cs1).map (fun p => (c.toNat :: p.1, p.2))

/-- Combine adjacent high/low surrogate code units into supplementary
characters, greedily left to right, as Python's string scanner does.  A
lone surrogate survives in a Python `str`; Lean's `Char` cannot hold one,
so `Char.ofNat` maps it to `'\0'` — no claim depends on inputs containing
lone surrogate escapes. -/
def combineSurrogates : List Nat → List Char
  | [] => []
  | [u] => [Char.ofNat u]
  | u :: v :: us =>
    if 0xd800 ≤ u ∧ u ≤ 0xdbff then
      if 0xdc00 ≤ v ∧ v ≤ 0xdfff then
        Char.ofNat (0x10000 + (u - 0xd800) * 0x400 + (v - 0xdc00)) :: combineSurrogates us
      else Char.ofNat u :: combineSurrogates (v :: us)
    else Char.ofNat u :: combineSurrogates (v :: us)

/-- Body of a JSON string after the opening quote: decoded characters and
the remainder after the closing quote. -/
def parseStringBody (cs : List Char) : Option (List Char × List Char) :=
  (psbUnits (cs.length + 1) cs).map (fun p => (combineSurrogates p.1, p.2))

/-- Longest prefix of decimal digits, and the remainder. -/
def takeDigits : List Char → List Char × List Char
  | [] => ([], [])
  | c :: cs =>
    if c.isDigit then
      match takeDigits cs with
      | (ds, rest) => (c :: ds, rest)
    else ([], c :: cs)

/-- Numeric value of a list of decimal digit characters. -/
def digitsVal (ds : List Char) : Nat :=
  ds.foldl (fun a c => a * 10 + (c.toNat - 48)) 0

/-- Exponent digits of a JSON number, after the `e`/`E`: an optional sign
followed by one or more digits.  Returns the consumed characters. -/
def parseExpDigits (cs : List Char) : Option (List Char × List Char) :=
  match cs with
  | [] => none
  | c :: cs1 =>
    if c = '+' ∨ c = '-' then
      match takeDigits cs1 with
      | ([], _) => none
      | (ds, rest) => some (c :: ds, rest)
    else
      match takeDigits cs with
      | ([], _) => none
      | (ds, rest) => some (ds, rest)

/-- Continuation of a number after its integer digits: Python's JSON
grammar `(\.\d+)? ([eE][-+]?\d+)?`.  A number with a fraction or exponent
is a float; otherwise it is an int. -/
def parseNumberRest (neg : Bool) (intDigits rest : List Char) : Option (JVal × List Char) :=
  let signChars : List Char := if neg then ['-'] else []
  if rest.head? = some '.' then
    match takeDigits rest.tail with
    | ([], _) => none
    | (fs, rest2) =>
      if rest2.head? = some 'e' ∨ rest2.head? = some 'E' then
        match parseExpDigits rest2.tail with
        | none => none
        | some (es, rest3) =>
          some (.jfloat (String.mk (signChars ++ intDigits ++ '.' :: fs ++ 'e' :: es)), rest3)
      else
        some (.jfloat (String.mk (signChars ++ intDigits ++ '.' :: fs)), rest2)
  else if rest.head? = some 'e' ∨ rest.head? = some 'E' then
    match parseExpDigits rest.tail with
    | none => none
    | some (es, rest3) =>
      some (.jfloat (String.mk (signChars ++ intDigits ++ 'e' :: es)), rest3)
  else
    some (.jint (if neg then -(digitsVal intDigits : Int) else (digitsVal intDigits : Int)), rest)

/-- A JSON number starting at `cs`: `-?(0|[1-9]\d*)(\.\d+)?([eE][-+]?\d+)?`
(leading zeros rejected, as in Python's JSON grammar). -/
def parseNumberFrom (neg : Bool) (cs : List Char) : Option (JVal × List Char) :=
  match takeDigits cs with
  | ([], _) => none
  | (d :: ds, rest) =>
    if d = '0' ∧ ds ≠ [] then none
    else parseNumberRest neg (d :: ds) rest

mutual

/-- One JSON value (with leading whitespace), mirroring Python's
`json.loads` grammar including its `NaN`/`Infinity`/`-Infinity` extras.
Recursion into objects and arrays is fuel-indexed; every recursive call
follows at least one consumed character, so `length + 1` fuel always
suffices (see `parseJson`). -/
def parseVal : Nat → List Char → Option (JVal × List Char)
  | 0, _ => none
  | fuel + 1, cs =>
    match skipWs cs with
    | [] => none
    | c :: cs1 =>
      if c = '"' then
        (parseStringBody cs1).map (fun p => (.jstr (String.mk p.1), p.2))
      else if c = '{' then
        let cs2 := skipWs cs1
        if cs2.head? = some '}' then some (.jobj [], cs2.tail)
        else (parseMembers fuel cs2).map (fun p => (.jobj p.1, p.2))
      else if c = '[' then
        let cs2 := skipWs cs1
        if cs2.head? = some ']' then some (.jarr [], cs2.tail)
        else (parseElems fuel cs2).map (fun p => (.jarr p.1, p.2))
      else if c = 't' then
        if cs1.take 3 = ['r', 'u', 'e'] then some (.jbool true, cs1.drop 3) else none
      else if c = 'f' then
        if cs1.take 4 = ['a', 'l', 's', 'e'] then some (.jbool false, cs1.drop 4) else none
      else if c = 'n' then
        if cs1.take 3 = ['u', 'l', 'l'] then some (.jnull, cs1.drop 3) else none
      else if c = 'N' then
        if cs1.take 2 = ['a', 'N'] then some (.jfloat "NaN", cs1.drop 2) else none
      else if c = 'I' then
        if cs1.take 7 = ['n', 'f', 'i', 'n', 'i', 't', 'y'] then
          some (.jfloat "Infinity", cs1.drop 7)
        else none
      else if c = '-' then
        if cs1.take 8 = ['I', 'n', 'f', 'i', 'n', 'i', 't', 'y'] then
          some (.jfloat "-Infinity", cs1.drop 8)
        else parseNumberFrom true cs1
      else if c.isDigit then
        parseNumberFrom false (c :: cs1)
      else none

/-- Members of a JSON object after `{` and leading whitespace, when the
object is non-empty. -/
def parseMembers : Nat → List Char → Option (List (String × JVal) × List Char)
  | 0, _ => none
  | fuel + 1, cs =>
    match cs with
    | [] => none
    | c :: cs1 =>
      if c = '"' then
        match parseStringBody cs1 with
        | none => none
        | some (k, cs2) =>
          match skipWs cs2 with
          | [] => none
          | c2 :: cs3 =>
            if c2 = ':' then
              match parseVal fuel cs3 with
              | none => none
              | some (v, cs4) =>
                match skipWs cs4 with
                | [] => none
                | c3 :: cs5 =>
                  if c3 = ',' then
                    (parseMembers fuel (skipWs cs5)).map
                      (fun p => ((String.mk k, v) :: p.1, p.2))
                  else if c3 = '}' then some ([(String.mk k, v)], cs5)
                  else none
            else none
      else none

/-- Elements of a JSON array after `[`, when the array is non-empty. -/
def parseElems : Nat → List Char → Option (List JVal × List Char)
  | 0, _ => none
  | fuel + 1, cs =>
    match parseVal fuel cs with
    | none => none
    | some (v, cs1) =>
      match skipWs cs1 with
      | [] => none
      | c :: cs2 =>
        if c = ',' then (parseElems fuel cs2).map (fun p => (v :: p.1, p.2))
        else if c = ']' then some ([v], cs2)
        else none

end

/-- Python's `json.loads`: parse one value and require only whitespace to
remain.  Returns `none` exactly where `json.loads` raises
`JSONDecodeError`. -/
def parseJson (s : String) : Option JVal :=
  match parseVal (s.toList.length + 1) s.toList with
  | some (v, rest) => if skipWs rest = [] then some v else none
  | none => none

/-- Lowercase hexadecimal digit, as emitted in Python's `\uXXXX` escapes. -/
def hexDig (n : Nat) : Char :=
  if n < 10 then Char.ofNat (48 + n) else Char.ofNat (87 + n)

/-- Four lowercase hex digits of `n < 0x10000`, most significant first. -/
def toHex4 (n : Nat) : List Char :=
  [hexDig (n / 4096 % 16), hexDig (n / 256 % 16), hexDig (n / 16 % 16), hexDig (n % 16)]

/-- Decimal digits of a natural number, most significant first
(fuel-indexed; `natChars` supplies sufficient fuel). -/
def natCharsAux : Nat → Nat → List Char
  | 0, _ => []
  | fuel + 1, n =>
    if n < 10 then [Char.ofNat (48 + n)]
    else natCharsAux fuel (n / 10) ++ [Char.ofNat (48 + n % 10)]

/-- Decimal digits of a natural number, as Python prints it. -/
def natChars (n : Nat) : List Char :=
  natCharsAux (n + 1) n

/-- Decimal representation of an integer, as Python prints it. -/
def intChars (i : Int) : List Char :=
  if i < 0 then '-' :: natChars i.natAbs else natChars i.natAbs

/-- Escape of one character under `json.dumps`'s default
`ensure_ascii=True`: `"` and `\` and the five short control escapes, a
`\uXXXX` escape for every other character outside printable ASCII
(`0x20`–`0x7e`), with a surrogate pair for supplementary-plane
characters. -/
def encAsciiChar (c : Char) : List Char :=
  if c = '"' then ['\\', '"']
  else if c = '\\' then ['\\', '\\']
  else if c = '\n' then ['\\', 'n']
  else if c = '\r' then ['\\', 'r']
  else if c = '\t' then ['\\', 't']
  else if c.toNat = 8 then ['\\', 'b']
  else if c.toNat = 12 then ['\\', 'f']
  else if c.toNat < 0x20 ∨ 0x7f ≤ c.toNat then
    if c.toNat < 0x10000 then '\\' :: 'u' :: toHex4 c.toNat
    else
      ('\\' :: 'u' :: toHex4 (0xd800 + (c.toNat - 0x10000) / 0x400)) ++
        ('\\' :: 'u' :: toHex4 (0xdc00 + (c.toNat - 0x10000) % 0x400))
  else [c]

/-- Escape of a whole string body under `ensure_ascii`. -/
def encAscii : List Char → List Char
  | [] => []
  | c :: cs => encAsciiChar c ++ encAscii cs

/-- A quoted, escaped JSON string literal as `json.dumps` emits it. -/
def qstr (s : String) : List Char :=
  '"' :: (encAscii s.toList ++ ['"'])

mutual

/-- Serialization of a JSON value by Python's `json.dumps` with default
arguments: separators `', '` and `': '`, `ensure_ascii=True`, insertion
order preserved.  (`jfloat` lexemes never reach serialization in the
handlers; they are emitted verbatim.) -/
def dumpsVal : JVal → List Char
  | .jnull => ['n', 'u', 'l', 'l']
  | .jbool true => ['t', 'r', 'u', 'e']
  | .jbool false => ['f', 'a', 'l', 's', 'e']
  | .jint i => intChars i
  | .jfloat lex => lex.toList
  | .jstr s => qstr s
  | .jarr es => '[' :: (dumpsElems es ++ [']'])
  | .jobj ms => '{' :: (dumpsMembers ms ++ ['}'])

/-- Array elements joined by `', '`. -/
def dumpsElems : List JVal → List Char
  | [] => []
  | [v] => dumpsVal v
  | v :: rest => dumpsVal v ++ ',' :: ' ' :: dumpsElems rest

/-- Object members joined by `', '`, each `key: value` with `': '`. -/
def dumpsMembers : List (String × JVal) → List Char
  | [] => []
  | [(k, v)] => qstr k ++ ':' :: ' ' :: dumpsVal v
  | (k, v) :: rest => qstr k ++ ':' :: ' ' :: dumpsVal v ++ ',' :: ' ' :: dumpsMembers rest

end

/-- Serialization `json.dumps` of a value, as a string. -/
def dumps (v : JVal) : String :=
  String.mk (dumpsVal v)

/-- Escape of one character in pydantic's `model_dump_json` output (a
serde-style JSON writer): only `"`, `\` and control characters are
escaped; other characters are emitted directly as UTF-8. -/
def encUtf8Char (c : Char) : List Char :=
  if c = '"' then ['\\', '"']
  else if c = '\\' then ['\\', '\\']
  else if c = '\n' then ['\\', 'n']
  else if c = '\r' then ['\\', 'r']
  else if c = '\t' then ['\\', 't']
  else if c.toNat = 8 then ['\\', 'b']
  else if c.toNat = 12 then ['\\', 'f']
  else if c.toNat < 0x20 then '\\' :: 'u' :: toHex4 c.toNat
  else [c]

/-- Escape of a whole string body in `model_dump_json` output. -/
def encUtf8 : List Char → List Char
  | [] => []
  | c :: cs => encUtf8Char c ++ encUtf8 cs

/-- A quoted string literal as pydantic's `model_dump_json` emits it. -/
def qstrU (s : String) : List Char :=
  '"' :: (encUtf8 s.toList ++ ['"'])

/-- The `User` pydantic model of the create-user handler:
`name: str`, `email: str`, `age: int`. -/
structure User where
  name : String
  email : String
  age : Int
deriving DecidableEq

/-- The `UserRequest` pydantic model of the user-lookup handler:
`user_id: str = Field(..., min_length=1, max_length=50)`. -/
structure UserRequest where
  user_id : String
deriving DecidableEq

/-- The `UserResponse` pydantic model of the user-lookup handler. -/
structure UserResponse where
  user_id : String
  name : String
  email : String
  status : String
deriving DecidableEq

/-- One entry of pydantic's `e.errors()` list.  The real entries carry
further fields (`msg`, `input`, `url`) whose exact text is a pydantic
implementation detail constrained by neither the spec nor the claims; the
error type and field location determine an entry's identity and count. -/
structure ValErr where
  ty : String
  loc : String
deriving DecidableEq

/-- JSON form of one validation error entry, as serialized inside the
handlers' 400 bodies (pydantic serializes `loc` tuples as arrays). -/
def errJson (e : ValErr) : JVal :=
  .jobj [("type", .jstr e.ty), ("loc", .jarr [.jstr e.loc])]

/-- Required string field of `User`.  A missing key is a `missing` error;
a present non-string value is a type error. -/
def checkStrField (ms : List (String × JVal)) (field : String) : Except ValErr String :=
  match pyGet ms field with
  | none => .error ⟨"missing", field⟩
  | some (.jstr s) => .ok s
  | some _ => .error ⟨"string_type", field⟩

/-- Required int field of `User`.  A missing key is a `missing` error; a
present non-int value is a type error.  (Pydantic's lax mode additionally
coerces integral floats and numeric strings to int; no claim quantifies
over such inputs and the coercion is not modelled.) -/
def checkIntField (ms : List (String × JVal)) (field : String) : Except ValErr Int :=
  match pyGet ms field with
  | none => .error ⟨"missing", field⟩
  | some (.jint n) => .ok n
  | some _ => .error ⟨"int_type", field⟩

/-- Error list contributed by one field check. -/
def errsOf {α : Type} : Except ValErr α → List ValErr
  | .error e => [e]
  | .ok _ => []

/-- Validation performed by `User(**body)`: all three declared fields are
required, extra keys are ignored (pydantic's default `extra="ignore"`),
and errors are reported in field declaration order. -/
def validateUser (ms : List (String × JVal)) : Except (List ValErr) User :=
  match checkStrField ms "name", checkStrField ms "email", checkIntField ms "age" with
  | .ok n, .ok e, .ok a => .ok ⟨n, e, a⟩
  | rn, re, ra => .error (errsOf rn ++ errsOf re ++ errsOf ra)

/-- Validation performed by `UserRequest(user_id=...)`: the input is
always a `str` here, so only the length constraints `min_length=1` and
`max_length=50` can fail (Python's `len` on `str` counts code points,
as `String.length` does). -/
def validateUserRequest (user_id : String) : Except (List ValErr) UserRequest :=
  if user_id.length < 1 then .error [⟨"string_too_short", "user_id"⟩]
  else if 50 < user_id.length then .error [⟨"string_too_long", "user_id"⟩]
  else .ok ⟨user_id⟩

/-- Dump `user.model_dump()` of the create-user handler's `User`, in field
declaration order. -/
def userDump (u : User) : JVal :=
  .jobj [("name", .jstr u.name), ("email", .jstr u.email), ("age", .jint u.age)]

/-- The object serialized into the create-user handler's 201 body. -/
def createBodyJ (u : User) : JVal :=
  .jobj [("message", .jstr "User created successfully"), ("user", userDump u)]

/-- The value of the `"body"` key of an invocation event: absent, JSON
null (Python `None`), or body text. -/
inductive BodyField where
  | absent : BodyField
  | pynull : BodyField
  | text (s : String) : BodyField
deriving DecidableEq

/-- The create-user handler consumes only the `"body"` entry of the event
dict; any other entries are carried opaquely. -/
structure CreateEvent where
  body : BodyField
  extraKeys : List String := []
deriving DecidableEq

/-- Response dict of the create-user handler: `statusCode` and `body`
(this handler sets no headers). -/
structure CreateResponse where
  statusCode : Nat
  body : String
deriving DecidableEq

/-- The fixed 500 body `json.dumps({"error": "Internal server error"})`. -/
def serverErrorBody : String :=
  dumps (.jobj [("error", .jstr "Internal server error")])

/-- The create-user handler's work on the decoded body text: `json.loads`,
then `User(**body)`, then the 201/400/500 responses.  `JSONDecodeError`
and the `TypeError` from `**`-expanding a non-object are not
`ValidationError`s, so both fall through to the generic
`except Exception` branch. -/
def createFromText (s : String) : CreateResponse :=
  match parseJson s with
  | none => { statusCode := 500, body := serverErrorBody }
  | some (.jobj ms) =>
    match validateUser ms with
    | .error errs =>
      { statusCode := 400,
        body := dumps (.jobj [("error", .jstr "Invalid input"),
                              ("details", .jarr (errs.map errJson))]) }
    | .ok u => { statusCode := 201, body := dumps (createBodyJ u) }
  | some _ => { statusCode := 500, body := serverErrorBody }

/-- Handler `lambda_handler` of `src/lambda_function.py`.  `event.get("body", "{}")`
substitutes `"{}"` only when the key is absent; a present `None` reaches
`json.loads` and raises `TypeError`, caught by the generic branch. -/
def lambda_handler (event : CreateEvent) : CreateResponse :=
  match event.body with
  | .absent => createFromText "{}"
  | .pynull => { statusCode := 500, body := serverErrorBody }
  | .text s => createFromText s

/-- The value of a dict-typed key of the gateway event (`headers`,
`requestContext`, `pathParameters`): absent, JSON null (Python `None`),
or a map with string values. -/
inductive DictField where
  | absent : DictField
  | pynull : DictField
  | dict (m : List (String × String)) : DictField
deriving DecidableEq

/-- The gateway event fields consumed by the user-lookup handler.
`httpMethod` and `path` feed only the start-of-request log line; other
event entries are carried opaquely. -/
structure LookupEvent where
  headers : DictField
  requestContext : DictField
  pathParameters : DictField
  httpMethod : Option String := none
  path : Option String := none
  extraKeys : List String := []
deriving DecidableEq

/-- The context attributes the user-lookup handler reads
(`context.function_name`, `context.request_id`); both feed only the
start-of-request log line, a side channel that does not influence the
returned response. -/
structure LambdaCtx where
  function_name : String
  request_id : String
deriving DecidableEq

/-- A Python exception escaping the handler uncaught. -/
inductive PyErr where
  | attributeError : PyErr
deriving DecidableEq

/-- Response dict of the user-lookup handler. -/
structure LookupResponse where
  statusCode : Nat
  headers : List (String × String)
  body : String
deriving DecidableEq

/-- Observable effects of one user-lookup invocation: the returned
response, the custom metrics added (in order), and the `user_id`
arguments of `get_user_from_database` calls. -/
structure LookupTrace where
  response : LookupResponse
  metrics : List String
  dbCalls : List String
deriving DecidableEq

/-- Record returned by the database stub. -/
structure DbRecord where
  user_id : String
  name : String
  email : String
deriving DecidableEq

/-- Stub `get_user_from_database` of `src/user_handler.py`: annotates the trace
span and logs at debug level (side channels), then returns the fixed mock
record. -/
def get_user_from_database (user_id : String) : DbRecord :=
  { user_id := user_id, name := "John Doe", email := "john@example.com" }

/-- Model of `str(uuid4())`: 128 environment-supplied random bits formatted as the
canonical 36-character hyphenated UUID text.  The RFC 4122 version/variant
bits are irrelevant to every claim; what matters is that the text is never
empty. -/
def str_uuid4 (n : Nat) : String :=
  String.mk
    ([hexDig (n / 16 ^ 31 % 16), hexDig (n / 16 ^ 30 % 16), hexDig (n / 16 ^ 29 % 16),
      hexDig (n / 16 ^ 28 % 16), hexDig (n / 16 ^ 27 % 16), hexDig (n / 16 ^ 26 % 16),
      hexDig (n / 16 ^ 25 % 16), hexDig (n / 16 ^ 24 % 16)] ++
     '-' :: [hexDig (n / 16 ^ 23 % 16), hexDig (n / 16 ^ 22 % 16),
      hexDig (n / 16 ^ 21 % 16), hexDig (n / 16 ^ 20 % 16)] ++
     '-' :: [hexDig (n / 16 ^ 19 % 16), hexDig (n / 16 ^ 18 % 16),
      hexDig (n / 16 ^ 17 % 16), hexDig (n / 16 ^ 16 % 16)] ++
     '-' :: [hexDig (n / 16 ^ 15 % 16), hexDig (n / 16 ^ 14 % 16),
      hexDig (n / 16 ^ 13 % 16), hexDig (n / 16 ^ 12 % 16)] ++
     '-' :: [hexDig (n / 16 ^ 11 % 16), hexDig (n / 16 ^ 10 % 16),
      hexDig (n / 16 ^ 9 % 16), hexDig (n / 16 ^ 8 % 16),
      hexDig (n / 16 ^ 7 % 16), hexDig (n / 16 ^ 6 % 16),
      hexDig (n / 16 ^ 5 % 16), hexDig (n / 16 ^ 4 % 16),
      hexDig (n / 16 ^ 3 % 16), hexDig (n / 16 ^ 2 % 16),
      hexDig (n / 16 ^ 1 % 16), hexDig (n / 16 ^ 0 % 16)])

/-- Python `or` continuation of the correlation expression after a falsy
headers lookup: `event.get("requestContext", {}).get("requestId") or
str(uuid4())`.  A present-but-`None` `requestContext` makes
`.get("requestId")` raise `AttributeError` — and this expression sits
before the `try` block, so nothing catches it. -/
def corrTail (ev : LookupEvent) (fresh : String) : Except PyErr String :=
  match ev.requestContext with
  | .pynull => .error .attributeError
  | .absent => .ok fresh
  | .dict m =>
    match pyGet m "requestId" with
    | none => .ok fresh
    | some r => .ok (if r = "" then fresh else r)

/-- The correlation expression of `src/user_handler.py` lines 54-58:
`event.get("headers", {}).get("x-correlation-id") or
event.get("requestContext", {}).get("requestId") or str(uuid4())`,
with Python's short-circuiting `or` and truthiness (absent key and empty
string are both falsy). -/
def correlationId (ev : LookupEvent) (fresh : String) : Except PyErr String :=
  match ev.headers with
  | .pynull => .error .attributeError
  | .absent => corrTail ev fresh
  | .dict m =>
    match pyGet m "x-correlation-id" with
    | none => corrTail ev fresh
    | some h => if h = "" then corrTail ev fresh else .ok h

/-- Body `response_body.model_dump_json()` of the 200 path: the `UserResponse`
fields in declaration order, compact separators, UTF-8 strings. -/
def userResponseJson (r : UserResponse) : String :=
  String.mk
    ('{' :: (qstrU "user_id" ++ ':' :: qstrU r.user_id ++
     ',' :: qstrU "name" ++ ':' :: qstrU r.name ++
     ',' :: qstrU "email" ++ ':' :: qstrU r.email ++
     ',' :: qstrU "status" ++ ':' :: qstrU r.status ++ ['}']))

/-- Handler `handler` of `src/user_handler.py`.  Correlation extraction and the
start-of-request log run before the `try` block; `RequestCount` is added
unconditionally; inside the `try`, `pathParameters` is `None`-safe
(`event.get("pathParameters") or {}`), validation failure is answered
locally with 400 and `ValidationErrors`, and the success path calls the
database stub and answers 200 with `SuccessCount`.  The source's
`except Exception` branch (500, `ServerErrors`, sanitized body) has no
trigger in this semantics: every operation inside the `try` block is
total. -/
def handler (ev : LookupEvent) (_ctx : LambdaCtx) (fresh : String) :
    Except PyErr LookupTrace :=
  match correlationId ev fresh with
  | .error e => .error e
  | .ok cid =>
    let pathParams : List (String × String) :=
      match ev.pathParameters with
      | .dict m => m
      | _ => []
    let user_id := (pyGet pathParams "user_id").getD ""
    match validateUserRequest user_id with
    | .error errs =>
      .ok { response := { statusCode := 400,
                          headers := [("X-Correlation-Id", cid)],
                          body := dumps (.jobj [("error", .jstr "Invalid request"),
                                                ("details", .jarr (errs.map errJson))]) },
            metrics := ["RequestCount", "ValidationErrors"],
            dbCalls := [] }
    | .ok req =>
      let db := get_user_from_database req.user_id
      let rb : UserResponse :=
        { user_id := db.user_id, name := db.name, email := db.email, status := "active" }
      .ok { response := { statusCode := 200,
                          headers := [("Content-Type", "application/json"),
                                      ("X-Correlation-Id", cid)],
                          body := userResponseJson rb },
            metrics := ["RequestCount", "SuccessCount"],
            dbCalls := [req.user_id] }

/-- The spec's priority rule for the correlation identifier, written from
its words for comparison with the code: header `x-correlation-id` if
present and non-empty, else gateway `requestId` if present and non-empty,
else the freshly generated identifier. -/
def specCorrelationFallback (reqId : Option String) (fresh : String) : String :=
  match reqId with
  | some r => if r ≠ "" then r else fresh
  | none => fresh

/-- Spec-side correlation resolution (see `specCorrelationFallback`). -/
def specCorrelationId (hdr reqId : Option String) (fresh : String) : String :=
  match hdr with
  | some h => if h ≠ "" then h else specCorrelationFallback reqId fresh
  | none => specCorrelationFallback reqId fresh

/-- The event's `x-correlation-id` header entry, when headers form a map. -/
def headerCorrelation (ev : LookupEvent) : Option String :=
  match ev.headers with
  | .dict m => pyGet m "x-correlation-id"
  | _ => none

/-- The event's gateway `requestContext.requestId`, when present. -/
def requestIdOf (ev : LookupEvent) : Option String :=
  match ev.requestContext with
  | .dict m => pyGet m "requestId"
  | _ => none

/-- The `user_id` path parameter as the handler extracts it:
`(event.get("pathParameters") or {}).get("user_id", "")`. -/
def extractedUserId (ev : LookupEvent) : String :=
  (pyGet (match ev.pathParameters with | .dict m => m | _ => []) "user_id").getD ""

theorem char_toNat_lt (c : Char) : c.toNat < 0x110000 := by
  have h := c.valid
  show c.val.toNat < 0x110000
  rcases h with h | h
  · omega
  · exact h.2

theorem char_not_surrogate (c : Char) : c.toNat < 0xd800 ∨ 0xdfff < c.toNat := by
  have h := c.valid
  show c.val.toNat < 0xd800 ∨ 0xdfff < c.val.toNat
  rcases h with h | h
  · exact Or.inl h
  · exact Or.inr h.1

theorem hexVal_hexDig : ∀ d : Nat, d < 16 → hexVal (hexDig d) = some d := by
  decide

theorem hex4_toHex4 (n : Nat) (h : n < 0x10000) :
    hex4 (hexDig (n / 4096 % 16)) (hexDig (n / 256 % 16))
      (hexDig (n / 16 % 16)) (hexDig (n % 16)) = some n := by
  rw [hex4, hexVal_hexDig _ (by omega), hexVal_hexDig _ (by omega),
    hexVal_hexDig _ (by omega), hexVal_hexDig _ (by omega)]
  simp only [Option.some.injEq]
  omega


/-- Code units produced by scanning the `ensure_ascii` encoding of a
string body: one unit per BMP character, a surrogate pair per
supplementary character. -/
def encUnits : List Char → List Nat
  | [] => []
  | c :: cs =>
    if c.toNat < 0x10000 then c.toNat :: encUnits cs
    else (0xd800 + (c.toNat - 0x10000) / 0x400) ::
      (0xdc00 + (c.toNat - 0x10000) % 0x400) :: encUnits cs


theorem combineSurrogates_cons_of_not_high (u : Nat) (us : List Nat)
    (h : ¬ (0xd800 ≤ u ∧ u ≤ 0xdbff)) :
    combineSurrogates (u :: us) = Char.ofNat u :: combineSurrogates us := by
  cases us with
  | nil => rfl
  | cons v us1 => rw [combineSurrogates, if_neg h]

theorem combineSurrogates_encUnits (l : List Char) :
    combineSurrogates (encUnits l) = l := by
  induction l with
  | nil => rfl
  | cons c cs ih =>
    by_cases hb : c.toNat < 0x10000
    · rw [encUnits, if_pos hb]
      rw [combineSurrogates_cons_of_not_high _ _
        (by rcases char_not_surrogate c with h | h <;> omega)]
      rw [Char.ofNat_toNat, ih]
    · rw [encUnits, if_neg hb]
      have hlt := char_toNat_lt c
      have hmod : (c.toNat - 0x10000) % 0x400 < 0x400 := Nat.mod_lt _ (by omega)
      rw [combineSurrogates, if_pos (by omega), if_pos (by omega)]
      have harg : 0x10000 + ((0xd800 + (c.toNat - 0x10000) / 0x400) - 0xd800) * 0x400 +
          ((0xdc00 + (c.toNat - 0x10000) % 0x400) - 0xdc00) = c.toNat := by omega
      rw [harg, Char.ofNat_toNat, ih]

theorem psbUnits_quote (fuel : Nat) (cs : List Char) :
    psbUnits (fuel + 1) ('"' :: cs) = some ([], cs) := rfl

theorem psbUnits_backslash (fuel : Nat) (cs : List Char) :
    psbUnits (fuel + 1) ('\\' :: cs) =
      match escStep cs with
      | none => none
      | some (u, cs2) => (psbUnits fuel cs2).map (fun p => (u :: p.1, p.2)) := rfl

theorem psbUnits_plainStep (fuel : Nat) (c : Char) (cs : List Char) (h1 : ¬ c = '"')
    (h2 : ¬ c = '\\') (h3 : ¬ c.toNat < 0x20) :
    psbUnits (fuel + 1) (c :: cs) =
      (psbUnits fuel cs).map (fun p => (c.toNat :: p.1, p.2)) := by
  rw [psbUnits]
  simp only [if_neg h1, if_neg h2, if_neg h3]

theorem escStep_u (cs : List Char) : escStep ('u' :: cs) = escU cs := rfl

theorem escU_toHex4 (n : Nat) (h : n < 0x10000) (cs : List Char) :
    escU (toHex4 n ++ cs) = some (n, cs) := by
  simp only [toHex4, List.cons_append, List.nil_append, escU, hex4_toHex4 n h, Option.map]

theorem psbUnits_backslash_some (fuel : Nat) (cs : List Char) (u : Nat) (cs2 : List Char)
    (h : escStep cs = some (u, cs2)) :
    psbUnits (fuel + 1) ('\\' :: cs) =
      (psbUnits fuel cs2).map (fun p => (u :: p.1, p.2)) := by
  rw [psbUnits_backslash, h]

theorem psbUnits_encAscii (l : List Char) : ∀ (fuel : Nat) (rest : List Char),
    (encAscii l).length < fuel →
    psbUnits fuel (encAscii l ++ '"' :: rest) = some (encUnits l, rest) := by
  induction l with
  | nil =>
    intro fuel rest hf
    obtain ⟨f, rfl⟩ : ∃ f, fuel = f + 1 := ⟨fuel - 1, by omega⟩
    exact psbUnits_quote f rest
  | cons c cs ih =>
    intro fuel rest hf
    have hlen : (encAscii (c :: cs)).length = (encAsciiChar c).length + (encAscii cs).length := by
      rw [show encAscii (c :: cs) = encAsciiChar c ++ encAscii cs from rfl, List.length_append]
    obtain ⟨f, rfl⟩ : ∃ f, fuel = f + 1 := ⟨fuel - 1, by omega⟩
    show psbUnits (f + 1) ((encAsciiChar c ++ encAscii cs) ++ '"' :: rest) = _
    rw [List.append_assoc]
    by_cases h1 : c = '"'
    · subst h1
      rw [show encAsciiChar '"' = ['\\', '"'] from rfl] at hlen ⊢
      rw [List.cons_append, List.cons_append, List.nil_append,
        psbUnits_backslash_some f ('"' :: (encAscii cs ++ '"' :: rest)) 34 (encAscii cs ++ '"' :: rest) rfl, ih f rest (by simp at hlen; omega)]
      rfl
    by_cases h2 : c = '\\'
    · subst h2
      rw [show encAsciiChar '\\' = ['\\', '\\'] from rfl] at hlen ⊢
      rw [List.cons_append, List.cons_append, List.nil_append,
        psbUnits_backslash_some f ('\\' :: (encAscii cs ++ '"' :: rest)) 92 (encAscii cs ++ '"' :: rest) rfl, ih f rest (by simp at hlen; omega)]
      rfl
    by_cases h3 : c = '\n'
    · subst h3
      rw [show encAsciiChar '\n' = ['\\', 'n'] from rfl] at hlen ⊢
      rw [List.cons_append, List.cons_append, List.nil_append,
        psbUnits_backslash_some f ('n' :: (encAscii cs ++ '"' :: rest)) 10 (encAscii cs ++ '"' :: rest) rfl, ih f rest (by simp at hlen; omega)]
      rfl
    by_cases h4 : c = '\r'
    · subst h4
      rw [show encAsciiChar '\r' = ['\\', 'r'] from rfl] at hlen ⊢
      rw [List.cons_append, List.cons_append, List.nil_append,
        psbUnits_backslash_some f ('r' :: (encAscii cs ++ '"' :: rest)) 13 (encAscii cs ++ '"' :: rest) rfl, ih f rest (by simp at hlen; omega)]
      rfl
    by_cases h5 : c = '\t'
    · subst h5
      rw [show encAsciiChar '\t' = ['\\', 't'] from rfl] at hlen ⊢
      rw [List.cons_append, List.cons_append, List.nil_append,
        psbUnits_backslash_some f ('t' :: (encAscii cs ++ '"' :: rest)) 9 (encAscii cs ++ '"' :: rest) rfl, ih f rest (by simp at hlen; omega)]
      rfl
    by_cases h6 : c.toNat = 8
    · have hc : c = '\x08' := Char.eq_of_val_eq (UInt32.ext h6)
      subst hc
      rw [show encAsciiChar '\x08' = ['\\', 'b'] from rfl] at hlen ⊢
      rw [List.cons_append, List.cons_append, List.nil_append,
        psbUnits_backslash_some f ('b' :: (encAscii cs ++ '"' :: rest)) 8 (encAscii cs ++ '"' :: rest) rfl, ih f rest (by simp at hlen; omega)]
      rfl
    by_cases h7 : c.toNat = 12
    · have hc : c = '\x0c' := Char.eq_of_val_eq (UInt32.ext h7)
      subst hc
      rw [show encAsciiChar '\x0c' = ['\\', 'f'] from rfl] at hlen ⊢
      rw [List.cons_append, List.cons_append, List.nil_append,
        psbUnits_backslash_some f ('f' :: (encAscii cs ++ '"' :: rest)) 12 (encAscii cs ++ '"' :: rest) rfl, ih f rest (by simp at hlen; omega)]
      rfl
    by_cases h8 : c.toNat < 0x20 ∨ 0x7f ≤ c.toNat
    · by_cases h9 : c.toNat < 0x10000
      · have henc : encAsciiChar c = '\\' :: 'u' :: toHex4 c.toNat := by
          simp [encAsciiChar, h1, h2, h3, h4, h5, h6, h7, h8, h9]
        rw [henc] at hlen ⊢
        rw [List.cons_append, List.cons_append,
          psbUnits_backslash_some f _ c.toNat _
            (by rw [escStep_u]; exact escU_toHex4 c.toNat h9 _),
          ih f rest (by simp [toHex4] at hlen; omega)]
        rw [show encUnits (c :: cs) = c.toNat :: encUnits cs by rw [encUnits, if_pos h9]]
        rfl
      · have hlt := char_toNat_lt c
        have henc : encAsciiChar c =
            ('\\' :: 'u' :: toHex4 (0xd800 + (c.toNat - 0x10000) / 0x400)) ++
              ('\\' :: 'u' :: toHex4 (0xdc00 + (c.toNat - 0x10000) % 0x400)) := by
          simp [encAsciiChar, h1, h2, h3, h4, h5, h6, h7, h8, h9]
        rw [henc] at hlen ⊢
        have hlen2 : (encAscii cs).length + 2 < f := by
          simp [toHex4] at hlen; omega
        obtain ⟨f2, rfl⟩ : ∃ f2, f = f2 + 1 := ⟨f - 1, by omega⟩
        rw [List.append_assoc, List.cons_append, List.cons_append,
          psbUnits_backslash_some (f2 + 1) _ (0xd800 + (c.toNat - 0x10000) / 0x400) _
            (by rw [escStep_u]; exact escU_toHex4 _ (by omega) _)]
        rw [List.cons_append, List.cons_append,
          psbUnits_backslash_some f2 _ (0xdc00 + (c.toNat - 0x10000) % 0x400) _
            (by rw [escStep_u]; exact escU_toHex4 _ (by omega) _)]
        rw [ih f2 rest (by omega)]
        rw [show encUnits (c :: cs) = (0xd800 + (c.toNat - 0x10000) / 0x400) ::
          (0xdc00 + (c.toNat - 0x10000) % 0x400) :: encUnits cs by rw [encUnits, if_neg h9]]
        rfl
    · have henc : encAsciiChar c = [c] := by
        simp [encAsciiChar, h1, h2, h3, h4, h5, h6, h7, h8]
      rw [henc] at hlen ⊢
      rw [List.cons_append, List.nil_append]
      rw [psbUnits_plainStep f c _ h1 h2 (by omega)]
      rw [ih f rest (by simp at hlen; omega)]
      rw [show encUnits (c :: cs) = c.toNat :: encUnits cs by rw [encUnits, if_pos (by omega)]]
      rfl

theorem parseStringBody_encAscii (l : List Char) (rest : List Char) :
    parseStringBody (encAscii l ++ '"' :: rest) = some (l, rest) := by
  rw [parseStringBody]
  rw [psbUnits_encAscii l _ rest (by rw [List.length_append]; simp; omega)]
  simp [combineSurrogates_encUnits]

theorem string_mk_toList (s : String) : String.mk s.toList = s := rfl

theorem char_isDigit_toNat (c : Char) (h : c.isDigit = true) :
    48 ≤ c.toNat ∧ c.toNat ≤ 57 := by
  simp only [Char.isDigit, decide_eq_true_eq, Bool.and_eq_true] at h
  obtain ⟨h1, h2⟩ := h
  constructor
  · exact h1
  · exact h2

theorem digitChar_isDigit : ∀ n : Nat, n < 10 → (Char.ofNat (48 + n)).isDigit = true := by
  decide

theorem digitChar_toNat : ∀ n : Nat, n < 10 → (Char.ofNat (48 + n)).toNat = 48 + n := by
  decide

theorem natCharsAux_digits : ∀ (fuel n : Nat), n < fuel →
    ∀ c ∈ natCharsAux fuel n, c.isDigit = true := by
  intro fuel
  induction fuel with
  | zero => omega
  | succ f ih =>
    intro n hn c hc
    rw [natCharsAux] at hc
    by_cases h10 : n < 10
    · rw [if_pos h10] at hc
      simp at hc
      rw [hc]
      exact digitChar_isDigit n h10
    · rw [if_neg h10] at hc
      rw [List.mem_append] at hc
      rcases hc with hc | hc
      · exact ih (n / 10) (by omega) c hc
      · simp at hc
        rw [hc]
        exact digitChar_isDigit (n % 10) (by omega)

theorem natCharsAux_ne_nil (fuel n : Nat) (h : n < fuel) : natCharsAux fuel n ≠ [] := by
  cases fuel with
  | zero => omega
  | succ f =>
    rw [natCharsAux]
    by_cases h10 : n < 10
    · rw [if_pos h10]; simp
    · rw [if_neg h10]; simp

theorem natCharsAux_foldl : ∀ (fuel n : Nat), n < fuel → ∀ (a : Nat),
    (natCharsAux fuel n).foldl (fun x c => x * 10 + (c.toNat - 48)) a =
      a * 10 ^ (natCharsAux fuel n).length + n := by
  intro fuel
  induction fuel with
  | zero => omega
  | succ f ih =>
    intro n hn a
    rw [natCharsAux]
    by_cases h10 : n < 10
    · rw [if_pos h10]
      simp [digitChar_toNat n h10]
    · rw [if_neg h10]
      rw [List.foldl_append, List.length_append]
      rw [ih (n / 10) (by omega) a]
      simp [digitChar_toNat (n % 10) (by omega)]
      rw [pow_succ]
      have := Nat.div_add_mod n 10
      ring_nf
      omega

theorem digitsVal_natChars (n : Nat) : digitsVal (natChars n) = n := by
  rw [digitsVal, natChars, natCharsAux_foldl (n + 1) n (by omega) 0]
  simp

theorem natChars_digits (n : Nat) : ∀ c ∈ natChars n, c.isDigit = true :=
  natCharsAux_digits (n + 1) n (by omega)

theorem natCharsAux_head_ne_zero : ∀ (fuel n : Nat), n < fuel → 0 < n →
    ∀ d ds, natCharsAux fuel n = d :: ds → ¬ d = '0' := by
  intro fuel
  induction fuel with
  | zero => omega
  | succ f ih =>
    intro n hn hpos d ds heq
    rw [natCharsAux] at heq
    by_cases h10 : n < 10
    · rw [if_pos h10] at heq
      simp at heq
      intro hd
      have h1 := heq.1
      rw [hd] at h1
      have h2 := congrArg Char.toNat h1
      rw [digitChar_toNat n h10] at h2
      have h3 : (48 : Nat) + n = 48 := by simpa using h2
      omega
    · rw [if_neg h10] at heq
      obtain ⟨d1, ds1, hrec⟩ : ∃ d1 ds1, natCharsAux f (n / 10) = d1 :: ds1 := by
        rcases hx : natCharsAux f (n / 10) with _ | ⟨d1, ds1⟩
        · exact absurd hx (natCharsAux_ne_nil f (n / 10) (by omega))
        · exact ⟨d1, ds1, rfl⟩
      rw [hrec] at heq
      simp at heq
      rw [← heq.1]
      exact ih (n / 10) (by omega) (by omega) d1 ds1 hrec

theorem takeDigits_append (ds rest : List Char) (h1 : ∀ c ∈ ds, c.isDigit = true)
    (h2 : ∀ c, rest.head? = some c → c.isDigit = false) :
    takeDigits (ds ++ rest) = (ds, rest) := by
  induction ds with
  | nil =>
    cases rest with
    | nil => rfl
    | cons r rs =>
      rw [List.nil_append, takeDigits, if_neg]
      rw [h2 r rfl]
      simp
  | cons c cs ih =>
    rw [List.cons_append, takeDigits, if_pos (h1 c (by simp))]
    rw [ih (fun x hx => h1 x (by simp [hx]))]

theorem natChars_cons (n : Nat) : ∃ d ds, natChars n = d :: ds := by
  rcases hx : natChars n with _ | ⟨d, ds⟩
  · exact absurd hx (natCharsAux_ne_nil (n + 1) n (by omega))
  · exact ⟨d, ds, rfl⟩

theorem natChars_no_leading_zero (n : Nat) (d : Char) (ds : List Char)
    (h : natChars n = d :: ds) : ¬ (d = '0' ∧ ds ≠ []) := by
  rintro ⟨hd, hds⟩
  by_cases h10 : n < 10
  · have hx : natChars n = [Char.ofNat (48 + n)] := by
      rw [natChars, natCharsAux, if_pos h10]
    rw [hx] at h
    simp at h
    exact hds h.2
  · exact natCharsAux_head_ne_zero (n + 1) n (by omega) (by omega) d ds h hd

theorem parseNumberFrom_natChars (neg : Bool) (n : Nat) (rest : List Char)
    (hb : ∀ c, rest.head? = some c →
      c.isDigit = false ∧ ¬ c = '.' ∧ ¬ c = 'e' ∧ ¬ c = 'E') :
    parseNumberFrom neg (natChars n ++ rest) =
      some (.jint (if neg then -(n : Int) else (n : Int)), rest) := by
  obtain ⟨d, ds, hnc⟩ := natChars_cons n
  have hTD : takeDigits (natChars n ++ rest) = (d :: ds, rest) := by
    rw [takeDigits_append _ _ (natChars_digits n) (fun c hc => (hb c hc).1), hnc]
  rw [parseNumberFrom, hTD]
  simp only [if_neg (natChars_no_leading_zero n d ds hnc)]
  have hdot : ¬ rest.head? = some '.' := by
    intro hh
    exact absurd rfl (hb '.' hh).2.1
  have he : ¬ (rest.head? = some 'e' ∨ rest.head? = some 'E') := by
    rintro (hh | hh)
    · exact absurd rfl (hb 'e' hh).2.2.1
    · exact absurd rfl (hb 'E' hh).2.2.2
  rw [parseNumberRest]
  simp only [if_neg hdot, if_neg he]
  have hdv : digitsVal (d :: ds) = n := by rw [← hnc, digitsVal_natChars]
  rw [hdv]

theorem parseVal_ws (fuel : Nat) (cs : List Char) :
    parseVal fuel (' ' :: cs) = parseVal fuel cs := by
  cases fuel <;> rfl

theorem parseVal_qstr (fuel : Nat) (s : String) (rest : List Char) :
    parseVal (fuel + 1) (qstr s ++ rest) = some (.jstr s, rest) := by
  rw [qstr, List.cons_append, List.append_assoc, List.cons_append, List.nil_append]
  rw [show parseVal (fuel + 1) ('"' :: (encAscii s.toList ++ '"' :: rest)) =
    (parseStringBody (encAscii s.toList ++ '"' :: rest)).map
      (fun p => (.jstr (String.mk p.1), p.2)) from rfl]
  rw [parseStringBody_encAscii]
  simp [string_mk_toList]

theorem isWsChar_of_digit (d : Char) (hd : d.isDigit = true) : isWsChar d = false := by
  rw [isWsChar]
  simp only [decide_eq_false_iff_not]
  rintro (h | h | h | h) <;> (rw [h] at hd; exact absurd hd (by decide))

theorem parseVal_digit_head (fuel : Nat) (d : Char) (X : List Char) (hd : d.isDigit = true) :
    parseVal (fuel + 1) (d :: X) = parseNumberFrom false (d :: X) := by
  have hskip : skipWs (d :: X) = d :: X := by
    rw [skipWs, isWsChar_of_digit d hd]
    simp
  have h1 : ¬ d = '"' := fun h => absurd (h ▸ hd) (by decide)
  have h2 : ¬ d = '{' := fun h => absurd (h ▸ hd) (by decide)
  have h3 : ¬ d = '[' := fun h => absurd (h ▸ hd) (by decide)
  have h4 : ¬ d = 't' := fun h => absurd (h ▸ hd) (by decide)
  have h5 : ¬ d = 'f' := fun h => absurd (h ▸ hd) (by decide)
  have h6 : ¬ d = 'n' := fun h => absurd (h ▸ hd) (by decide)
  have h7 : ¬ d = 'N' := fun h => absurd (h ▸ hd) (by decide)
  have h8 : ¬ d = 'I' := fun h => absurd (h ▸ hd) (by decide)
  have h9 : ¬ d = '-' := fun h => absurd (h ▸ hd) (by decide)
  rw [parseVal, hskip]
  simp only [if_neg h1, if_neg h2, if_neg h3, if_neg h4, if_neg h5, if_neg h6, if_neg h7,
    if_neg h8, if_neg h9, hd, if_pos]

theorem parseVal_neg_head (fuel : Nat) (X : List Char)
    (h : X.take 8 ≠ ['I', 'n', 'f', 'i', 'n', 'i', 't', 'y']) :
    parseVal (fuel + 1) ('-' :: X) = parseNumberFrom true X := by
  rw [show parseVal (fuel + 1) ('-' :: X) =
    (if X.take 8 = ['I', 'n', 'f', 'i', 'n', 'i', 't', 'y'] then
      some (.jfloat "-Infinity", X.drop 8)
    else parseNumberFrom true X) from rfl]
  rw [if_neg h]

theorem parseVal_intChars (fuel : Nat) (i : Int) (rest : List Char)
    (hb : ∀ c, rest.head? = some c →
      c.isDigit = false ∧ ¬ c = '.' ∧ ¬ c = 'e' ∧ ¬ c = 'E') :
    parseVal (fuel + 1) (intChars i ++ rest) = some (.jint i, rest) := by
  obtain ⟨d, ds, hnc⟩ := natChars_cons i.natAbs
  have hd : d.isDigit = true := natChars_digits i.natAbs d (by rw [hnc]; simp)
  by_cases hneg : i < 0
  · rw [intChars, if_pos hneg, List.cons_append]
    rw [parseVal_neg_head fuel _ (by
      rw [hnc, List.cons_append, List.take]
      intro hh
      simp at hh
      exact absurd (hh.1 ▸ hd) (by decide))]
    rw [parseNumberFrom_natChars true i.natAbs rest hb]
    simp only [Option.some.injEq, Prod.mk.injEq, JVal.jint.injEq]
    refine ⟨?_, trivial⟩
    rw [if_pos trivial]
    omega
  · rw [intChars, if_neg hneg]
    have hx : natChars i.natAbs ++ rest = d :: (ds ++ rest) := by
      rw [hnc, List.cons_append]
    rw [hx, parseVal_digit_head fuel d _ hd, ← hx]
    rw [parseNumberFrom_natChars false i.natAbs rest hb]
    simp only [Option.some.injEq, Prod.mk.injEq, JVal.jint.injEq]
    refine ⟨?_, trivial⟩
    rw [if_neg (by decide : ¬ false = true)]
    omega

theorem parseVal_obj_nonempty (fuel : Nat) (cs : List Char)
    (h : ¬ (skipWs cs).head? = some '}') :
    parseVal (fuel + 1) ('{' :: cs) =
      (parseMembers fuel (skipWs cs)).map (fun p => (.jobj p.1, p.2)) := by
  rw [show parseVal (fuel + 1) ('{' :: cs) =
    (if (skipWs cs).head? = some '}' then some (.jobj [], (skipWs cs).tail)
     else (parseMembers fuel (skipWs cs)).map (fun p => (.jobj p.1, p.2))) from rfl]
  rw [if_neg h]

theorem parseMembers_entry (fuel : Nat) (k : String) (v : JVal) (vtail sep : List Char)
    (hv : parseVal fuel (' ' :: vtail) = some (v, sep)) :
    parseMembers (fuel + 1) ('"' :: (encAscii k.toList ++ '"' :: ':' :: ' ' :: vtail)) =
      match skipWs sep with
      | [] => none
      | c3 :: cs5 =>
        if c3 = ',' then (parseMembers fuel (skipWs cs5)).map (fun p => ((k, v) :: p.1, p.2))
        else if c3 = '}' then some ([(k, v)], cs5)
        else none := by
  have hsb : parseStringBody (encAscii k.toList ++ '"' :: ':' :: ' ' :: vtail)
      = some (k.toList, ':' :: ' ' :: vtail) := parseStringBody_encAscii _ _
  simp only [parseMembers, hsb, string_mk_toList]
  rw [show skipWs (':' :: ' ' :: vtail) = ':' :: ' ' :: vtail from rfl]
  simp only [hv]
  rw [if_pos trivial, if_pos trivial]

theorem parseMembers_last (fuel : Nat) (k : String) (v : JVal) (vtail rest : List Char)
    (hv : parseVal fuel (' ' :: vtail) = some (v, '}' :: rest)) :
    parseMembers (fuel + 1) ('"' :: (encAscii k.toList ++ '"' :: ':' :: ' ' :: vtail)) =
      some ([(k, v)], rest) := by
  rw [parseMembers_entry fuel k v vtail _ hv]
  rw [show skipWs ('}' :: rest) = '}' :: rest from rfl]
  simp

theorem parseMembers_cons (fuel : Nat) (k : String) (v : JVal) (vtail rest rest2 : List Char)
    (ms : List (String × JVal))
    (hv : parseVal fuel (' ' :: vtail) = some (v, ',' :: ' ' :: rest))
    (hr : skipWs rest = rest)
    (hm : parseMembers fuel rest = some (ms, rest2)) :
    parseMembers (fuel + 1) ('"' :: (encAscii k.toList ++ '"' :: ':' :: ' ' :: vtail)) =
      some ((k, v) :: ms, rest2) := by
  rw [parseMembers_entry fuel k v vtail _ hv]
  rw [show skipWs (',' :: ' ' :: rest) = ',' :: ' ' :: rest from rfl]
  simp only [if_pos rfl]
  rw [show skipWs (' ' :: rest) = skipWs rest from rfl, hr, hm]
  rfl

theorem parseVal_qstr2 (fuel : Nat) (s : String) (rest : List Char) :
    parseVal (fuel + 1) ('"' :: (encAscii s.toList ++ '"' :: rest)) = some (.jstr s, rest) := by
  rw [show ('"' :: (encAscii s.toList ++ '"' :: rest) : List Char) = qstr s ++ rest by
    simp [qstr]]
  exact parseVal_qstr fuel s rest

theorem skipWs_quote (cs : List Char) : skipWs ('"' :: cs) = '"' :: cs := rfl

theorem parseVal_obj_quote (fuel : Nat) (cs : List Char) :
    parseVal (fuel + 1) ('{' :: '"' :: cs) =
      (parseMembers fuel ('"' :: cs)).map (fun p => (.jobj p.1, p.2)) := by
  have h := parseVal_obj_nonempty fuel ('"' :: cs) (by rw [skipWs_quote]; simp)
  rw [skipWs_quote] at h
  exact h

theorem parseVal_userDump (m : Nat) (u : User) (rest : List Char) :
    parseVal (m + 5) (' ' :: (dumpsVal (userDump u) ++ rest)) = some (userDump u, rest) := by
  rw [parseVal_ws]
  simp only [userDump, dumpsVal, dumpsMembers, qstr, List.append_assoc, List.cons_append,
    List.nil_append]
  have hage : parseMembers (m + 2)
      ('"' :: (encAscii "age".toList ++ '"' :: ':' :: ' ' :: (intChars u.age ++ '}' :: rest)))
      = some ([("age", JVal.jint u.age)], rest) := by
    refine parseMembers_last (m + 1) "age" (JVal.jint u.age) _ rest ?_
    rw [parseVal_ws]
    exact parseVal_intChars m u.age ('}' :: rest)
      (by intro c hc; simp at hc; subst hc; decide)
  have hemail : parseMembers (m + 3)
      ('"' :: (encAscii "email".toList ++ '"' :: ':' :: ' ' ::
        ('"' :: (encAscii u.email.toList ++ '"' :: ',' :: ' ' ::
          ('"' :: (encAscii "age".toList ++ '"' :: ':' :: ' ' ::
            (intChars u.age ++ '}' :: rest)))))))
      = some ([("email", JVal.jstr u.email), ("age", JVal.jint u.age)], rest) := by
    refine parseMembers_cons (m + 2) "email" (JVal.jstr u.email) _ _ rest _ ?_ rfl hage
    rw [parseVal_ws]
    exact parseVal_qstr2 (m + 1) u.email _
  have hname : parseMembers (m + 4)
      ('"' :: (encAscii "name".toList ++ '"' :: ':' :: ' ' ::
        ('"' :: (encAscii u.name.toList ++ '"' :: ',' :: ' ' ::
          ('"' :: (encAscii "email".toList ++ '"' :: ':' :: ' ' ::
            ('"' :: (encAscii u.email.toList ++ '"' :: ',' :: ' ' ::
              ('"' :: (encAscii "age".toList ++ '"' :: ':' :: ' ' ::
                (intChars u.age ++ '}' :: rest)))))))))))
      = some ([("name", JVal.jstr u.name), ("email", JVal.jstr u.email),
          ("age", JVal.jint u.age)], rest) := by
    refine parseMembers_cons (m + 3) "name" (JVal.jstr u.name) _ _ rest _ ?_ rfl hemail
    rw [parseVal_ws]
    exact parseVal_qstr2 (m + 2) u.name _
  rw [parseVal_obj_quote (m + 4), hname]
  rfl

theorem dumpsVal_createBody_eq (u : User) : dumpsVal (createBodyJ u) =
    '{' :: '"' :: (encAscii "message".toList ++ '"' :: ':' :: ' ' ::
      ('"' :: (encAscii "User created successfully".toList ++ '"' :: ',' :: ' ' ::
        ('"' :: (encAscii "user".toList ++ '"' :: ':' :: ' ' ::
          (dumpsVal (userDump u) ++ ['}'])))))) := by
  rw [createBodyJ, dumpsVal, dumpsMembers, dumpsVal, dumpsMembers]
  · simp only [qstr, List.append_assoc, List.cons_append, List.nil_append]
  · simp

theorem parseVal_createBody (m : Nat) (u : User) (rest : List Char) :
    parseVal (m + 8) (dumpsVal (createBodyJ u) ++ rest) = some (createBodyJ u, rest) := by
  rw [dumpsVal_createBody_eq]
  simp only [List.append_assoc, List.cons_append, List.nil_append]
  have huser : parseMembers (m + 6)
      ('"' :: (encAscii "user".toList ++ '"' :: ':' :: ' ' ::
        (dumpsVal (userDump u) ++ '}' :: rest)))
      = some ([("user", userDump u)], rest) :=
    parseMembers_last (m + 5) "user" (userDump u) _ rest (parseVal_userDump m u ('}' :: rest))
  have hmsg : parseMembers (m + 7)
      ('"' :: (encAscii "message".toList ++ '"' :: ':' :: ' ' ::
        ('"' :: (encAscii "User created successfully".toList ++ '"' :: ',' :: ' ' ::
          ('"' :: (encAscii "user".toList ++ '"' :: ':' :: ' ' ::
            (dumpsVal (userDump u) ++ '}' :: rest)))))))
      = some ([("message", JVal.jstr "User created successfully"), ("user", userDump u)],
          rest) := by
    refine parseMembers_cons (m + 6) "message" (JVal.jstr "User created successfully")
      _ _ rest _ ?_ rfl huser
    rw [parseVal_ws]
    exact parseVal_qstr2 (m + 5) "User created successfully" _
  rw [parseVal_obj_quote (m + 7), hmsg]
  rfl

theorem parseJson_dumps_createBody (u : User) :
    parseJson (dumps (createBodyJ u)) = some (createBodyJ u) := by
  rw [dumps, parseJson]
  rw [show (String.mk (dumpsVal (createBodyJ u))).toList = dumpsVal (createBodyJ u) from rfl]
  have hlen : 7 ≤ (dumpsVal (createBodyJ u)).length := by
    rw [dumpsVal_createBody_eq]
    simp [List.length_append]
    omega
  obtain ⟨m, hm⟩ : ∃ m, (dumpsVal (createBodyJ u)).length + 1 = m + 8 :=
    ⟨(dumpsVal (createBodyJ u)).length - 7, by omega⟩
  rw [hm]
  have hpv : parseVal (m + 8) (dumpsVal (createBodyJ u)) = some (createBodyJ u, []) := by
    have h := parseVal_createBody m u []
    rwa [List.append_nil] at h
  rw [hpv]
  simp [skipWs]

theorem serverErrorBody_eq :
    serverErrorBody = "\x7b\"error\": \"Internal server error\"\x7d" := by
  simp only [serverErrorBody, dumps, dumpsVal, dumpsMembers, qstr]
  rfl

theorem lambda_handler_text (s : String) (extra : List String) :
    lambda_handler { body := .text s, extraKeys := extra } = createFromText s := rfl

theorem validateUser_ok (ms : List (String × JVal)) (n e : String) (a : Int)
    (hn : pyGet ms "name" = some (.jstr n)) (he : pyGet ms "email" = some (.jstr e))
    (ha : pyGet ms "age" = some (.jint a)) :
    validateUser ms = .ok ⟨n, e, a⟩ := by
  rw [validateUser, checkStrField, checkStrField, checkIntField, hn, he, ha]

theorem str_uuid4_length (n : Nat) : (str_uuid4 n).length = 36 := by
  rw [str_uuid4]
  simp [String.length]

theorem str_uuid4_ne_empty (n : Nat) : str_uuid4 n ≠ "" := by
  intro h
  have := str_uuid4_length n
  rw [h] at this
  simp at this

theorem specCorrelationFallback_some (r : String) (fresh : String) :
    specCorrelationFallback (some r) fresh = if r ≠ "" then r else fresh := rfl

theorem specCorrelationFallback_none (fresh : String) :
    specCorrelationFallback none fresh = fresh := rfl

theorem specCorrelationId_some (h : String) (reqId : Option String) (fresh : String) :
    specCorrelationId (some h) reqId fresh =
      if h ≠ "" then h else specCorrelationFallback reqId fresh := rfl

theorem specCorrelationId_none (reqId : Option String) (fresh : String) :
    specCorrelationId none reqId fresh = specCorrelationFallback reqId fresh := rfl

theorem corrTail_ok_spec (ev : LookupEvent) (fresh c : String)
    (h : corrTail ev fresh = .ok c) :
    c = specCorrelationFallback (requestIdOf ev) fresh := by
  rcases ev with ⟨hdrs, rc, pp, hm, pth, ex⟩
  rcases rc with _ | _ | m
  · simp only [corrTail] at h
    simp only [requestIdOf, specCorrelationFallback_none]
    exact (Except.ok.injEq _ _ ▸ h).symm
  · simp only [corrTail] at h
    exact absurd h (by simp)
  · simp only [corrTail] at h
    simp only [requestIdOf]
    rcases hr : pyGet m "requestId" with _ | r
    · rw [hr] at h
      rw [specCorrelationFallback_none]
      have h2 : (Except.ok fresh : Except PyErr String) = Except.ok c := h
      exact (Except.ok.injEq _ _ ▸ h2).symm
    · rw [hr] at h
      rw [specCorrelationFallback_some]
      have h2 : (Except.ok (if r = "" then fresh else r) : Except PyErr String)
          = Except.ok c := h
      by_cases hre : r = ""
      · rw [if_pos hre] at h2
        rw [if_neg (by simp [hre])]
        exact (Except.ok.injEq _ _ ▸ h2).symm
      · rw [if_neg hre] at h2
        rw [if_pos hre]
        exact (Except.ok.injEq _ _ ▸ h2).symm

theorem correlationId_ok_spec (ev : LookupEvent) (fresh cid : String)
    (h : correlationId ev fresh = .ok cid) :
    cid = specCorrelationId (headerCorrelation ev) (requestIdOf ev) fresh := by
  rcases ev with ⟨hdrs, rc, pp, hm, pth, ex⟩
  rcases hdrs with _ | _ | m
  · simp only [correlationId] at h
    simp only [headerCorrelation, specCorrelationId_none]
    exact corrTail_ok_spec _ fresh cid h
  · simp only [correlationId] at h
    exact absurd h (by simp)
  · simp only [correlationId] at h
    simp only [headerCorrelation]
    rcases hh : pyGet m "x-correlation-id" with _ | hv
    · rw [hh] at h
      rw [specCorrelationId_none]
      exact corrTail_ok_spec _ fresh cid h
    · rw [hh] at h
      rw [specCorrelationId_some]
      replace h : (if hv = "" then
          corrTail ⟨DictField.dict m, rc, pp, hm, pth, ex⟩ fresh
        else Except.ok hv) = Except.ok cid := h
      by_cases hve : hv = ""
      · rw [if_pos hve] at h
        rw [if_neg (by simp [hve])]
        exact corrTail_ok_spec _ fresh cid h
      · rw [if_neg hve] at h
        rw [if_pos hve]
        exact (Except.ok.injEq _ _ ▸ h).symm

theorem correlationId_ok_of_wf (ev : LookupEvent) (fresh : String)
    (hH : ev.headers ≠ .pynull) (hR : ev.requestContext ≠ .pynull) :
    ∃ cid, correlationId ev fresh = .ok cid := by
  rcases ev with ⟨hdrs, rc, pp, hm, pth, ex⟩
  simp only [ne_eq] at hH hR
  have htail : ∃ c, corrTail ⟨hdrs, rc, pp, hm, pth, ex⟩ fresh = .ok c := by
    rcases rc with _ | _ | m
    · exact ⟨fresh, rfl⟩
    · exact absurd rfl hR
    · rcases hr : pyGet m "requestId" with _ | r
      · exact ⟨fresh, by simp [corrTail, hr]⟩
      · exact ⟨if r = "" then fresh else r, by simp [corrTail, hr]⟩
  obtain ⟨c, hc⟩ := htail
  rcases hdrs with _ | _ | m
  · exact ⟨c, hc⟩
  · exact absurd rfl hH
  · rcases hh : pyGet m "x-correlation-id" with _ | hv
    · refine ⟨c, ?_⟩
      simp only [correlationId, hh]
      exact hc
    · by_cases hve : hv = ""
      · refine ⟨c, ?_⟩
        simp only [correlationId, hh, if_pos hve]
        exact hc
      · exact ⟨hv, by simp only [correlationId, hh, if_neg hve]⟩

theorem handler_400_branch (ev : LookupEvent) (ctx : LambdaCtx) (fresh cid : String)
    (errs : List ValErr)
    (hc : correlationId ev fresh = .ok cid)
    (hv : validateUserRequest (extractedUserId ev) = .error errs) :
    handler ev ctx fresh = .ok
      { response := { statusCode := 400,
                      headers := [("X-Correlation-Id", cid)],
                      body := dumps (.jobj [("error", .jstr "Invalid request"),
                                            ("details", .jarr (errs.map errJson))]) },
        metrics := ["RequestCount", "ValidationErrors"],
        dbCalls := [] } := by
  rw [extractedUserId] at hv
  rw [handler, hc]
  simp only [hv]

theorem handler_200_branch (ev : LookupEvent) (ctx : LambdaCtx) (fresh cid : String)
    (req : UserRequest)
    (hc : correlationId ev fresh = .ok cid)
    (hv : validateUserRequest (extractedUserId ev) = .ok req) :
    handler ev ctx fresh = .ok
      { response := { statusCode := 200,
                      headers := [("Content-Type", "application/json"),
                                  ("X-Correlation-Id", cid)],
                      body := userResponseJson
                        { user_id := req.user_id,
                          name := "John Doe",
                          email := "john@example.com",
                          status := "active" } },
        metrics := ["RequestCount", "SuccessCount"],
        dbCalls := [req.user_id] } := by
  rw [extractedUserId] at hv
  rw [handler, hc]
  simp only [hv]
  rfl

/-- Mock Lambda context fixture (shape of `tests/conftest.py`'s context,
with the `request_id` attribute the handler reads). -/
def ctxTest : LambdaCtx := { function_name := "test-function", request_id := "test-request-id" }

/-- A well-formed lookup event: correlation header, gateway request id and
a valid `user_id` path parameter. -/
def evSuccess : LookupEvent :=
  { headers := .dict [("x-correlation-id", "abc")],
    requestContext := .dict [("requestId", "rid-1")],
    pathParameters := .dict [("user_id", "u1")] }

/-- The trace the handler produces on `evSuccess`. -/
def trSuccess : LookupTrace :=
  { response := { statusCode := 200,
                  headers := [("Content-Type", "application/json"),
                              ("X-Correlation-Id", "abc")],
                  body := userResponseJson
                    { user_id := "u1",
                      name := "John Doe",
                      email := "john@example.com",
                      status := "active" } },
    metrics := ["RequestCount", "SuccessCount"],
    dbCalls := ["u1"] }

/-- A lookup event whose `headers` entry is JSON null, as API Gateway
sends when a request carries no headers. -/
def evNullHeaders : LookupEvent :=
  { headers := .pynull, requestContext := .absent, pathParameters := .absent }

/-- C1: for every invocation of the user-lookup observability handler that
returns a response (200, 400, or 500 path), the response headers contain
`X-Correlation-Id`, and its value is resolved by priority: the event's
`x-correlation-id` header if present and non-empty, else the gateway
`requestContext.requestId` if present and non-empty, else the freshly
generated random identifier, which is never empty. -/
theorem lookup_correlation_header (ev : LookupEvent) (ctx : LambdaCtx) (n : Nat)
    (tr : LookupTrace) (h : handler ev ctx (str_uuid4 n) = .ok tr) :
    pyGet tr.response.headers "X-Correlation-Id" =
      some (specCorrelationId (headerCorrelation ev) (requestIdOf ev) (str_uuid4 n)) ∧
    str_uuid4 n ≠ "" := by
  refine ⟨?_, str_uuid4_ne_empty n⟩
  rcases hc : correlationId ev (str_uuid4 n) with e | cid
  · rw [handler, hc] at h
    exact absurd h (by simp)
  · have hspec := correlationId_ok_spec ev _ cid hc
    rcases hv : validateUserRequest (extractedUserId ev) with errs | req
    · have h2 := handler_400_branch ev ctx _ cid errs hc hv
      have h4 := Except.ok.inj (h.symm.trans h2)
      rw [h4]
      show some cid = _
      exact congrArg some hspec
    · have h2 := handler_200_branch ev ctx _ cid req hc hv
      have h4 := Except.ok.inj (h.symm.trans h2)
      rw [h4]
      show some cid = _
      exact congrArg some hspec

/-- Witness for C1 at a concrete event carrying header `abc`. -/
theorem lookup_correlation_header_witness :
    pyGet trSuccess.response.headers "X-Correlation-Id" =
      some (specCorrelationId (headerCorrelation evSuccess) (requestIdOf evSuccess)
        (str_uuid4 0)) ∧
    str_uuid4 0 ≠ "" :=
  lookup_correlation_header evSuccess ctxTest 0 trSuccess (by rfl)

/-- C2 counterexample: at the concrete event whose `headers` entry is JSON
null, the correlation expression (which sits before the `try` block) calls
`.get` on `None` and the `AttributeError` escapes the handler uncaught, so
the handler does not return any structured response. -/
theorem lookup_handler_uncaught :
    handler evNullHeaders ctxTest (str_uuid4 0) = Except.error PyErr.attributeError ∧
    (handler evNullHeaders ctxTest (str_uuid4 0)).isOk = false :=
  ⟨rfl, rfl⟩

/-- C2 (amended): for every event whose `headers` and `requestContext`
entries, when present, are maps (not null), and every context, the
user-lookup handler terminates normally and returns a structured response
with statusCode 200, 400, or 500; a validation failure is answered locally
with 400, a validation success with 200, and no error escapes. -/
theorem lookup_handler_total_wf (ev : LookupEvent) (ctx : LambdaCtx) (fresh : String)
    (hH : ev.headers ≠ .pynull) (hR : ev.requestContext ≠ .pynull) :
    ∃ tr, handler ev ctx fresh = .ok tr ∧
      (tr.response.statusCode = 200 ∨ tr.response.statusCode = 400 ∨
        tr.response.statusCode = 500) ∧
      (∀ errs, validateUserRequest (extractedUserId ev) = .error errs →
        tr.response.statusCode = 400) ∧
      (∀ req, validateUserRequest (extractedUserId ev) = .ok req →
        tr.response.statusCode = 200) := by
  obtain ⟨cid, hc⟩ := correlationId_ok_of_wf ev fresh hH hR
  rcases hv : validateUserRequest (extractedUserId ev) with errs | req
  · refine ⟨_, handler_400_branch ev ctx fresh cid errs hc hv, by simp, fun _ _ => rfl, ?_⟩
    intro r hr
    exact absurd hr (by simp)
  · refine ⟨_, handler_200_branch ev ctx fresh cid req hc hv, by simp, ?_, fun _ _ => rfl⟩
    intro r hr
    exact absurd hr (by simp)

/-- Witness for C2 (amended) at a concrete well-formed event. -/
theorem lookup_handler_total_wf_witness :
    ∃ tr, handler evSuccess ctxTest "f0" = .ok tr ∧
      (tr.response.statusCode = 200 ∨ tr.response.statusCode = 400 ∨
        tr.response.statusCode = 500) ∧
      (∀ errs, validateUserRequest (extractedUserId evSuccess) = .error errs →
        tr.response.statusCode = 400) ∧
      (∀ req, validateUserRequest (extractedUserId evSuccess) = .ok req →
        tr.response.statusCode = 200) :=
  lookup_handler_total_wf evSuccess ctxTest "f0" (by decide) (by decide)

/-- C3: for every invocation of the user-lookup handler (on a well-formed
event) in which the path parameter `user_id` is absent, empty, or longer
than 50 characters, the handler returns statusCode 400 with body
`{"error": "Invalid request", "details": [...]}` and the correlation
header, increments ValidationErrors exactly once and RequestCount exactly
once, and increments neither SuccessCount nor ServerErrors. -/
theorem lookup_invalid_user_id_400 (ev : LookupEvent) (ctx : LambdaCtx) (n : Nat)
    (hH : ev.headers ≠ .pynull) (hR : ev.requestContext ≠ .pynull)
    (hbad : extractedUserId ev = "" ∨ 50 < (extractedUserId ev).length) :
    ∃ tr errs, handler ev ctx (str_uuid4 n) = .ok tr ∧
      tr.response.statusCode = 400 ∧
      validateUserRequest (extractedUserId ev) = .error errs ∧ errs ≠ [] ∧
      tr.response.body = dumps (.jobj [("error", .jstr "Invalid request"),
        ("details", .jarr (errs.map errJson))]) ∧
      (∃ cid, pyGet tr.response.headers "X-Correlation-Id" = some cid) ∧
      tr.metrics.count "RequestCount" = 1 ∧
      tr.metrics.count "ValidationErrors" = 1 ∧
      tr.metrics.count "SuccessCount" = 0 ∧
      tr.metrics.count "ServerErrors" = 0 := by
  obtain ⟨cid, hc⟩ := correlationId_ok_of_wf ev _ hH hR
  have hv : ∃ errs, validateUserRequest (extractedUserId ev) = .error errs ∧ errs ≠ [] := by
    rcases hbad with hbad | hbad
    · refine ⟨[⟨"string_too_short", "user_id"⟩], ?_, by simp⟩
      rw [validateUserRequest, if_pos (by rw [hbad]; decide)]
    · refine ⟨[⟨"string_too_long", "user_id"⟩], ?_, by simp⟩
      rw [validateUserRequest, if_neg (by omega), if_pos hbad]
  obtain ⟨errs, hv, hne⟩ := hv
  exact ⟨_, errs, handler_400_branch ev ctx _ cid errs hc hv, rfl, hv, hne, rfl,
    ⟨cid, rfl⟩, rfl, rfl, rfl, rfl⟩

/-- A lookup event carrying no path parameters at all. -/
def evNoPath : LookupEvent :=
  { headers := .absent, requestContext := .absent, pathParameters := .absent }

/-- Witness for C3 at a concrete event with no path parameters. -/
theorem lookup_invalid_user_id_400_witness :
    ∃ tr errs, handler evNoPath ctxTest (str_uuid4 0) = .ok tr ∧
      tr.response.statusCode = 400 ∧
      validateUserRequest (extractedUserId evNoPath) = .error errs ∧ errs ≠ [] ∧
      tr.response.body = dumps (.jobj [("error", .jstr "Invalid request"),
        ("details", .jarr (errs.map errJson))]) ∧
      (∃ cid, pyGet tr.response.headers "X-Correlation-Id" = some cid) ∧
      tr.metrics.count "RequestCount" = 1 ∧
      tr.metrics.count "ValidationErrors" = 1 ∧
      tr.metrics.count "SuccessCount" = 0 ∧
      tr.metrics.count "ServerErrors" = 0 :=
  lookup_invalid_user_id_400 evNoPath ctxTest 0 (by decide) (by decide) (Or.inl rfl)

/-- C4: for every invocation of the user-lookup handler (on a well-formed
event) whose path parameter `user_id` has length between 1 and 50, the
handler returns statusCode 200 with headers `Content-Type:
application/json` and `X-Correlation-Id`, a body carrying that `user_id`
with the stub values name `John Doe`, email `john@example.com`, status
`active`, and increments the SuccessCount metric. -/
theorem lookup_valid_user_id_200 (ev : LookupEvent) (ctx : LambdaCtx) (n : Nat)
    (hH : ev.headers ≠ .pynull) (hR : ev.requestContext ≠ .pynull)
    (hlen1 : 1 ≤ (extractedUserId ev).length)
    (hlen2 : (extractedUserId ev).length ≤ 50) :
    ∃ tr, handler ev ctx (str_uuid4 n) = .ok tr ∧
      tr.response.statusCode = 200 ∧
      pyGet tr.response.headers "Content-Type" = some "application/json" ∧
      (∃ cid, pyGet tr.response.headers "X-Correlation-Id" = some cid) ∧
      tr.response.body = userResponseJson
        { user_id := extractedUserId ev,
          name := "John Doe",
          email := "john@example.com",
          status := "active" } ∧
      tr.metrics.count "SuccessCount" = 1 := by
  obtain ⟨cid, hc⟩ := correlationId_ok_of_wf ev _ hH hR
  have hv : validateUserRequest (extractedUserId ev) = .ok ⟨extractedUserId ev⟩ := by
    rw [validateUserRequest, if_neg (by omega), if_neg (by omega)]
  exact ⟨_, handler_200_branch ev ctx _ cid ⟨extractedUserId ev⟩ hc hv, rfl, rfl,
    ⟨cid, rfl⟩, rfl, rfl⟩

/-- Witness for C4 at the concrete success event. -/
theorem lookup_valid_user_id_200_witness :
    ∃ tr, handler evSuccess ctxTest (str_uuid4 0) = .ok tr ∧
      tr.response.statusCode = 200 ∧
      pyGet tr.response.headers "Content-Type" = some "application/json" ∧
      (∃ cid, pyGet tr.response.headers "X-Correlation-Id" = some cid) ∧
      tr.response.body = userResponseJson
        { user_id := extractedUserId evSuccess,
          name := "John Doe",
          email := "john@example.com",
          status := "active" } ∧
      tr.metrics.count "SuccessCount" = 1 :=
  lookup_valid_user_id_200 evSuccess ctxTest 0 (by decide) (by decide)
    (by decide) (by decide)

/-- C8: in the user-lookup handler a validation failure never proceeds to
business logic: whenever the handler returns and constructing the
`UserRequest` from the `user_id` path parameter failed validation, the
database stub was never invoked, SuccessCount was not incremented, and the
success (200) path was not reached. -/
theorem lookup_validation_blocks_business (ev : LookupEvent) (ctx : LambdaCtx)
    (fresh : String) (tr : LookupTrace) (errs : List ValErr)
    (h : handler ev ctx fresh = .ok tr)
    (hv : validateUserRequest (extractedUserId ev) = .error errs) :
    tr.dbCalls = [] ∧ tr.metrics.count "SuccessCount" = 0 ∧
    tr.response.statusCode ≠ 200 := by
  rcases hc : correlationId ev fresh with e | cid
  · rw [handler, hc] at h
    exact absurd h (by simp)
  · have h2 := handler_400_branch ev ctx fresh cid errs hc hv
    have h4 := Except.ok.inj (h.symm.trans h2)
    rw [h4]
    exact ⟨rfl, rfl, by simp⟩

/-- The trace the handler produces on `evNoPath` with fresh identifier
`str_uuid4 0`. -/
def trMissing : LookupTrace :=
  { response := { statusCode := 400,
                  headers := [("X-Correlation-Id", str_uuid4 0)],
                  body := dumps (.jobj [("error", .jstr "Invalid request"),
                    ("details", .jarr (([⟨"string_too_short", "user_id"⟩] :
                      List ValErr).map errJson))]) },
    metrics := ["RequestCount", "ValidationErrors"],
    dbCalls := [] }

/-- Witness for C8 at a concrete event with an empty `user_id`. -/
theorem lookup_validation_blocks_business_witness :
    trMissing.dbCalls = [] ∧ trMissing.metrics.count "SuccessCount" = 0 ∧
    trMissing.response.statusCode ≠ 200 :=
  lookup_validation_blocks_business evNoPath ctxTest (str_uuid4 0) trMissing
    [⟨"string_too_short", "user_id"⟩] (by rfl) rfl

/-- C5: for every event whose body is a JSON-encoded object providing
`name` (string), `email` (string) and `age` (integer) — extra keys
ignored — the create-user handler returns statusCode 201 with a JSON body
carrying message `User created successfully` and a `user` object echoing
the three fields unchanged. -/
theorem create_user_valid_201 (s : String) (extra : List String)
    (ms : List (String × JVal)) (n e : String) (a : Int)
    (hp : parseJson s = some (.jobj ms))
    (hn : pyGet ms "name" = some (.jstr n))
    (he : pyGet ms "email" = some (.jstr e))
    (ha : pyGet ms "age" = some (.jint a)) :
    lambda_handler { body := .text s, extraKeys := extra } =
      { statusCode := 201, body := dumps (createBodyJ ⟨n, e, a⟩) } := by
  simp only [lambda_handler_text, createFromText, hp, validateUser_ok ms n e a hn he ha]

/-- The valid create-user payload of the repository's success test. -/
def johnBody : String :=
  "\x7b\"name\":\"John Doe\",\"email\":\"john@example.com\",\"age\":30\x7d"

/-- Witness for C5 at the concrete payload of the repository's success
test. -/
theorem create_user_valid_201_witness :
    lambda_handler { body := .text johnBody, extraKeys := [] } =
      { statusCode := 201,
        body := dumps (createBodyJ ⟨"John Doe", "john@example.com", 30⟩) } :=
  create_user_valid_201 johnBody []
    [("name", .jstr "John Doe"), ("email", .jstr "john@example.com"), ("age", .jint 30)]
    "John Doe" "john@example.com" 30 (by rfl) rfl rfl rfl

/-- C6: for every event whose body is valid JSON for an object missing at
least one of the required fields `name`, `email`, `age`, the create-user
handler returns statusCode 400 with a JSON body whose `error` field equals
`Invalid input` and whose `details` list is non-empty. -/
theorem create_user_missing_field_400 (s : String) (extra : List String)
    (ms : List (String × JVal))
    (hp : parseJson s = some (.jobj ms))
    (hmiss : pyGet ms "name" = none ∨ pyGet ms "email" = none ∨ pyGet ms "age" = none) :
    ∃ errs, validateUser ms = .error errs ∧ errs ≠ [] ∧
      lambda_handler { body := .text s, extraKeys := extra } =
        { statusCode := 400,
          body := dumps (.jobj [("error", .jstr "Invalid input"),
            ("details", .jarr (errs.map errJson))]) } := by
  have hval : ∃ errs, validateUser ms = .error errs ∧ errs ≠ [] := by
    rcases h1 : checkStrField ms "name" with e1 | n1 <;>
      rcases h2 : checkStrField ms "email" with e2 | n2 <;>
        rcases h3 : checkIntField ms "age" with e3 | a3
    · exact ⟨[e1, e2, e3], by simp [validateUser, h1, h2, h3, errsOf], by simp⟩
    · exact ⟨[e1, e2], by simp [validateUser, h1, h2, h3, errsOf], by simp⟩
    · exact ⟨[e1, e3], by simp [validateUser, h1, h2, h3, errsOf], by simp⟩
    · exact ⟨[e1], by simp [validateUser, h1, h2, h3, errsOf], by simp⟩
    · exact ⟨[e2, e3], by simp [validateUser, h1, h2, h3, errsOf], by simp⟩
    · exact ⟨[e2], by simp [validateUser, h1, h2, h3, errsOf], by simp⟩
    · exact ⟨[e3], by simp [validateUser, h1, h2, h3, errsOf], by simp⟩
    · exfalso
      rcases hmiss with hm | hm | hm
      · rw [checkStrField, hm] at h1
        simp at h1
      · rw [checkStrField, hm] at h2
        simp at h2
      · rw [checkIntField, hm] at h3
        simp at h3
  obtain ⟨errs, hv, hne⟩ := hval
  exact ⟨errs, hv, hne, by simp only [lambda_handler_text, createFromText, hp, hv]⟩

/-- The payload missing `email` from the repository's validation-error
test. -/
def janeBody : String := "\x7b\"name\":\"Jane Doe\",\"age\":25\x7d"

/-- Witness for C6 at the payload missing `email`. -/
theorem create_user_missing_field_400_witness :
    ∃ errs, validateUser [("name", .jstr "Jane Doe"), ("age", .jint 25)] = .error errs ∧
      errs ≠ [] ∧
      lambda_handler { body := .text janeBody, extraKeys := [] } =
        { statusCode := 400,
          body := dumps (.jobj [("error", .jstr "Invalid input"),
            ("details", .jarr (errs.map errJson))]) } :=
  create_user_missing_field_400 janeBody [] [("name", .jstr "Jane Doe"), ("age", .jint 25)]
    (by rfl) (Or.inr (Or.inl rfl))

/-- C7: for every event whose body text is not valid JSON, the create-user
handler returns statusCode 500 and the response body is exactly the fixed
JSON object `{"error": "Internal server error"}` with no raw exception
text — the decode failure is not caught as validation but falls through to
the generic failure branch. -/
theorem create_user_malformed_500 (s : String) (extra : List String)
    (hp : parseJson s = none) :
    lambda_handler { body := .text s, extraKeys := extra } =
      { statusCode := 500, body := "\x7b\"error\": \"Internal server error\"\x7d" } := by
  simp only [lambda_handler_text, createFromText, hp, serverErrorBody_eq]

/-- Witness for C7 at the malformed body of the repository's
malformed-JSON test. -/
theorem create_user_malformed_500_witness :
    lambda_handler { body := .text "not valid json\x7b", extraKeys := [] } =
      { statusCode := 500, body := "\x7b\"error\": \"Internal server error\"\x7d" } :=
  create_user_malformed_500 "not valid json\x7b" [] (by rfl)

/-- C10: for every event dictionary with no `body` key at all, the
create-user handler behaves exactly as for the body text `"{}"`: it
returns statusCode 400 with validation details for the three missing
required fields, not a 500. -/
theorem create_user_absent_body_400 (ev : CreateEvent) (h : ev.body = .absent) :
    lambda_handler ev = lambda_handler { body := .text "\x7b\x7d", extraKeys := ev.extraKeys } ∧
    lambda_handler ev =
      { statusCode := 400,
        body := dumps (.jobj [("error", .jstr "Invalid input"),
          ("details", .jarr (([⟨"missing", "name"⟩, ⟨"missing", "email"⟩,
            ⟨"missing", "age"⟩] : List ValErr).map errJson))]) } := by
  rcases ev with ⟨b, ex⟩
  cases h
  exact ⟨rfl, rfl⟩

/-- Witness for C10 at the concrete body-less event. -/
theorem create_user_absent_body_400_witness :
    lambda_handler { body := .absent, extraKeys := [] } =
      lambda_handler { body := .text "\x7b\x7d", extraKeys := [] } ∧
    lambda_handler { body := .absent, extraKeys := [] } =
      { statusCode := 400,
        body := dumps (.jobj [("error", .jstr "Invalid input"),
          ("details", .jarr (([⟨"missing", "name"⟩, ⟨"missing", "email"⟩,
            ⟨"missing", "age"⟩] : List ValErr).map errJson))]) } :=
  create_user_absent_body_400 { body := .absent, extraKeys := [] } rfl

/-- Reading one field of the `user` object back out of the create-user
handler's 201 response body: decode the JSON text, take the `user` member,
and look the field up — what a client or test does. -/
def deserializeUserField (body : String) (field : String) : Option JVal :=
  match parseJson body with
  | some (.jobj ms) =>
    match pyGet ms "user" with
    | some (.jobj us) => pyGet us field
    | _ => none
  | _ => none

/-- C9: for every valid `User` payload, serializing the user object placed
in the create-user handler's 201 response body and then deserializing it
yields exactly the original `name`, `email` and `age` values. -/
theorem create_user_roundtrip (u : User) :
    deserializeUserField (dumps (createBodyJ u)) "name" = some (.jstr u.name) ∧
    deserializeUserField (dumps (createBodyJ u)) "email" = some (.jstr u.email) ∧
    deserializeUserField (dumps (createBodyJ u)) "age" = some (.jint u.age) := by
  have h2 : parseJson (dumps (createBodyJ u)) =
      some (.jobj [("message", .jstr "User created successfully"),
        ("user", .jobj [("name", .jstr u.name), ("email", .jstr u.email),
          ("age", .jint u.age)])]) := parseJson_dumps_createBody u
  refine ⟨?_, ?_, ?_⟩ <;> (rw [deserializeUserField]; simp only [h2]; rfl)
